import Mathlib

/-!
Shallow embedding of the fallible-computation algebra of the
`rust-by-example` corpus (chapters 18 "Error Handling" and 19 "Std Library
types"), together with proofs of the spec's claims about it.

The embedding conventions:
* Rust `Option<T>` is Lean `Option`; its combinators (`map`, `and_then`,
  `or_else`, `get_or_insert`, `ok_or`) are re-defined here from the Rust
  semantics the source relies on, so the file is self-contained.
* Rust `Result<T, E>` is the inductive `RustResult` below.
* Rust `str::parse::<i32>` is `parseI32`, an executable model of
  `i32::from_str` (sign handling, per-digit accumulation with an i32
  range check, `ParseIntError` kinds).
* The `?` operator is the explicit control-flow combinator `qmark`
  (on `RustResult`, performing the declared `From` conversion on the
  error path) and `qmarkO` (on `Option`, no conversion).
* Side effects that the spec says must not happen (a closure never being
  invoked) are made observable by instrumented variants that thread an
  invocation counter or a message log.
* Machine integers: `i32` values are `Int` with explicit range guards;
  `u8` arithmetic is `Nat` arithmetic modulo 256.
-/

/-- Rust `Result<T, E>`: `ok` is `Ok`, `err` is `Err`. -/
inductive RustResult (α ε : Type) : Type
| ok : α → RustResult α ε
| err : ε → RustResult α ε
deriving DecidableEq, Repr

/-- The kind stored inside `std::num::ParseIntError`. -/
inductive IntErrorKind : Type
| empty : IntErrorKind
| invalidDigit : IntErrorKind
| posOverflow : IntErrorKind
| negOverflow : IntErrorKind
deriving DecidableEq, Repr

/-- `std::num::ParseIntError`. -/
structure ParseIntError : Type where
  kind : IntErrorKind
deriving DecidableEq, Repr

/-- The `Display` string of a `ParseIntError`, i.e. its description. -/
def ParseIntError.description (e : ParseIntError) : String :=
  match e.kind with
  | IntErrorKind.empty => "cannot parse integer from empty string"
  | IntErrorKind.invalidDigit => "invalid digit found in string"
  | IntErrorKind.posOverflow => "number too large to fit in target type"
  | IntErrorKind.negOverflow => "number too small to fit in target type"

/-- `char::to_digit(10)`: the value of a decimal digit character. -/
def digitVal (c : Char) : Option Nat :=
  if 48 ≤ c.toNat ∧ c.toNat ≤ 57 then Option.some (c.toNat - 48)
  else Option.none

/-- Digit-accumulation loop of `i32::from_str` for a non-negative number:
multiply by 10 and add each digit, failing with `PosOverflow` as soon as
the accumulator leaves the `i32` range (Rust's `checked_mul`/`checked_add`
on `i32`). -/
def parseDigitsPos : List Char → Int → RustResult Int ParseIntError
| [], acc => RustResult.ok acc
| c :: cs, acc =>
  match digitVal c with
  | Option.none => RustResult.err ⟨IntErrorKind.invalidDigit⟩
  | Option.some d =>
    let v : Int := acc * 10 + d
    if 2147483647 < v then RustResult.err ⟨IntErrorKind.posOverflow⟩
    else parseDigitsPos cs v

/-- Digit-accumulation loop of `i32::from_str` for a negative number:
multiply by 10 and subtract each digit, failing with `NegOverflow` as soon
as the accumulator leaves the `i32` range. -/
def parseDigitsNeg : List Char → Int → RustResult Int ParseIntError
| [], acc => RustResult.ok acc
| c :: cs, acc =>
  match digitVal c with
  | Option.none => RustResult.err ⟨IntErrorKind.invalidDigit⟩
  | Option.some d =>
    let v : Int := acc * 10 - d
    if v < -2147483648 then RustResult.err ⟨IntErrorKind.negOverflow⟩
    else parseDigitsNeg cs v

/-- `str::parse::<i32>` (`i32::from_str`): empty input gives `Empty`, a
lone sign gives `InvalidDigit`, otherwise the signed digit loop runs. -/
def parseI32 (s : String) : RustResult Int ParseIntError :=
  match s.toList with
  | [] => RustResult.err ⟨IntErrorKind.empty⟩
  | ['+'] => RustResult.err ⟨IntErrorKind.invalidDigit⟩
  | ['-'] => RustResult.err ⟨IntErrorKind.invalidDigit⟩
  | '+' :: rest => parseDigitsPos rest 0
  | '-' :: rest => parseDigitsNeg rest 0
  | cs => parseDigitsPos cs 0

/-- `Result::map`: transforms the success payload, failure passes through. -/
def RustResult.map {α β ε : Type} (r : RustResult α ε) (f : α → β) : RustResult β ε :=
  match r with
  | RustResult.ok v => RustResult.ok (f v)
  | RustResult.err e => RustResult.err e

/-- `Result::map_err`: transforms the failure payload, success passes through. -/
def RustResult.map_err {α ε φ : Type} (r : RustResult α ε) (f : ε → φ) : RustResult α φ :=
  match r with
  | RustResult.ok v => RustResult.ok v
  | RustResult.err e => RustResult.err (f e)

/-- `Result::and_then` (flat-map): applies `f` to a success, keeps a failure. -/
def RustResult.and_then {α β ε : Type} (r : RustResult α ε) (f : α → RustResult β ε) :
    RustResult β ε :=
  match r with
  | RustResult.ok v => f v
  | RustResult.err e => RustResult.err e

/-- The `?` operator applied to a `Result` inside a function whose declared
error type is `φ`: `Ok(v)` continues with `v` into the rest of the body `k`;
`Err(e)` returns `Err(conv e)` from the enclosing function, where `conv` is
the declared `From` conversion (the identity when the two error types
coincide). -/
def qmark {α β ε φ : Type} (r : RustResult α ε) (conv : ε → φ)
    (k : α → RustResult β φ) : RustResult β φ :=
  match r with
  | RustResult.ok v => k v
  | RustResult.err e => RustResult.err (conv e)

/-- The `?` operator applied to an `Option` inside a function returning an
`Option`: `Some(v)` continues with `v`; `None` returns `None`, with no
conversion step. -/
def qmarkO {α β : Type} (o : Option α) (k : α → Option β) : Option β :=
  match o with
  | Option.some v => k v
  | Option.none => Option.none

/-- `Option::map` as the source uses it. -/
def optMap {α β : Type} (o : Option α) (f : α → β) : Option β :=
  match o with
  | Option.some v => Option.some (f v)
  | Option.none => Option.none

/-- Instrumented `Option::map`: also reports how many times `f` ran. -/
def optMapCounting {α β : Type} (o : Option α) (f : α → β) : Option β × Nat :=
  match o with
  | Option.some v => (Option.some (f v), 1)
  | Option.none => (Option.none, 0)

/-- `Option::and_then` (flat-map). -/
def optAndThen {α β : Type} (o : Option α) (f : α → Option β) : Option β :=
  match o with
  | Option.some v => f v
  | Option.none => Option.none

/-- `Option::or`: eager fallback. -/
def optOr {α : Type} (o : Option α) (alt : Option α) : Option α :=
  match o with
  | Option.some v => Option.some v
  | Option.none => alt

/-- `Option::or_else`: lazy fallback, the producer runs only on `None`. -/
def or_else {α : Type} (o : Option α) (f : Unit → Option α) : Option α :=
  match o with
  | Option.some v => Option.some v
  | Option.none => f ()

/-- Instrumented `Option::or_else` over producers that also carry the
message their closure would print: the state is the current value plus the
log of messages printed so far, and a producer's message is appended
exactly when the producer is invoked. -/
def or_elseW {α : Type} (s : Option α × List String)
    (f : Unit → Option α × String) : Option α × List String :=
  match s.1 with
  | Option.some v => (Option.some v, s.2)
  | Option.none =>
    let r := f ()
    (r.1, s.2 ++ [r.2])

/-- `Option::get_or_insert`, in state-passing form: the result is the pair
(value the returned reference points at, option after the call). -/
def get_or_insert {α : Type} (o : Option α) (value : α) : α × Option α :=
  match o with
  | Option.none => (value, Option.some value)
  | Option.some w => (w, Option.some w)

/-- `Option::get_or_insert_with`, in state-passing form: the producer is
invoked only on `None`; the Bool reports whether it was invoked. -/
def get_or_insert_with {α : Type} (o : Option α) (f : Unit → α) :
    α × Option α × Bool :=
  match o with
  | Option.none =>
    let v := f ()
    (v, Option.some v, true)
  | Option.some w => (w, Option.some w, false)

/-- `Option::ok_or`: convert an `Option` into a `Result` with the given
error for `None`. -/
def ok_or {α ε : Type} (o : Option α) (e : ε) : RustResult α ε :=
  match o with
  | Option.some v => RustResult.ok v
  | Option.none => RustResult.err e

/-- `Vec::first` / slice `first`: the first element, if any. -/
def firstElem {α : Type} : List α → Option α
| [] => Option.none
| x :: _ => Option.some x

/-! Concrete programs from chapter 18, translated function by function. -/

/-- `multiply` from `intorducing_question_mark`: both parses go through `?`;
the error types coincide, so the conversion is the identity. -/
def multiply (first_number_str second_number_str : String) :
    RustResult Int ParseIntError :=
  qmark (parseI32 first_number_str) (fun e => e) (fun first_number =>
    qmark (parseI32 second_number_str) (fun e => e) (fun second_number =>
      RustResult.ok (first_number * second_number)))

/-- `multiply_with_combinators`: `and_then` over the first parse, `map`
over the second. -/
def multiply_with_combinators (first_number_str second_number_str : String) :
    RustResult Int ParseIntError :=
  (parseI32 first_number_str).and_then (fun first_number =>
    (parseI32 second_number_str).map (fun second_number =>
      first_number * second_number))

/-- Instrumented `multiply`: also counts how many parse steps actually ran.
The second parse is reached only when the first `?` does not return early. -/
def multiplyCounting (first_number_str second_number_str : String) :
    RustResult Int ParseIntError × Nat :=
  match parseI32 first_number_str with
  | RustResult.err e => (RustResult.err e, 1)
  | RustResult.ok first_number =>
    match parseI32 second_number_str with
    | RustResult.err e => (RustResult.err e, 2)
    | RustResult.ok second_number =>
      (RustResult.ok (first_number * second_number), 2)

/-- A pipeline of `and_then` (`chain`) steps, instrumented with the number
of step closures actually invoked: a failure skips every remaining step. -/
def chainRun {α ε : Type} :
    RustResult α ε → List (α → RustResult α ε) → RustResult α ε × Nat
| r, [] => (r, 0)
| RustResult.err e, _ :: _ => (RustResult.err e, 0)
| RustResult.ok v, f :: fs =>
  let p := chainRun (f v) fs
  (p.1, p.2 + 1)

/-- `DoubleError` from `wrapping_errors`: the unifying enumerated error
type, wrapping a `ParseIntError` in its `Parse` variant. -/
inductive DoubleError : Type
| emptyVec : DoubleError
| parse : ParseIntError → DoubleError
deriving DecidableEq, Repr

/-- The `Display` string of a `DoubleError`. -/
def DoubleError.description : DoubleError → String
| DoubleError.emptyVec => "please use a vector with at least one element"
| DoubleError.parse _ => "the provided string could not be parsed as int"

/-- `Error::source` for `DoubleError`: the wrapped `ParseIntError` is the
cause of a `Parse` error; `EmptyVec` has no underlying cause. -/
def DoubleError.source : DoubleError → Option ParseIntError
| DoubleError.emptyVec => Option.none
| DoubleError.parse e => Option.some e

/-- `From<ParseIntError> for DoubleError`: the declared conversion the `?`
operator invokes. -/
def fromParseIntError (err : ParseIntError) : DoubleError :=
  DoubleError.parse err

/-- `double_first` from `wrapping_errors`: `vec.first().ok_or(EmptyVec)?`
(same error type, identity conversion) then `first.parse::<i32>()?`
(converted through `From<ParseIntError>`), then `Ok(2 * parsed)`. -/
def double_first (vec : List String) : RustResult Int DoubleError :=
  qmark (ok_or (firstElem vec) DoubleError.emptyVec) (fun e => e) (fun first =>
    qmark (parseI32 first) fromParseIntError (fun parsed =>
      RustResult.ok (2 * parsed)))

/-- `EmptyVec` from `other_uses_of_question_mark`: a unit-like concrete
error type. -/
inductive EmptyVec : Type
| mk : EmptyVec
deriving DecidableEq, Repr

/-- The erased `Box<dyn Error>`: within this program only two concrete
error kinds are ever boxed, so the erased value is one of them; it is
observed only through its description/cause capability below. -/
inductive BoxedError : Type
| emptyVec : BoxedError
| parseErr : ParseIntError → BoxedError
deriving DecidableEq, Repr

/-- The description capability of a boxed error (`Display`). `EmptyVec`
displays as `"invalid first item to double"` in that section. -/
def BoxedError.description : BoxedError → String
| BoxedError.emptyVec => "invalid first item to double"
| BoxedError.parseErr e => e.description

/-- `double_first` from `other_uses_of_question_mark`: the function's
declared error type is the dynamic box, so each `?` boxes the concrete
error it propagates. -/
def double_first_dyn (vec : List String) : RustResult Int BoxedError :=
  qmark (ok_or (firstElem vec) EmptyVec.mk) (fun _ => BoxedError.emptyVec)
    (fun first =>
      qmark (parseI32 first) BoxedError.parseErr (fun parsed =>
        RustResult.ok (2 * parsed)))

/-- `next_birthday` from `unpacking_options_with_question_mark`:
`current_age? + 1` on a `u8` (modelled modulo 256), then the formatted
string. `None` propagates through `?`. -/
def next_birthday (current_age : Option Nat) : Option String :=
  qmarkO current_age (fun age =>
    let next_age : Nat := (age + 1) % 256
    Option.some ("Next year I will be " ++ toString next_age))

/-- `PhoneNumber { area_code: Option<u8>, number: u32 }`. -/
structure PhoneNumber : Type where
  area_code : Option Nat
  number : Nat
deriving DecidableEq, Repr

/-- `Job { phone_number: Option<PhoneNumber> }`. -/
structure Job : Type where
  phone_number : Option PhoneNumber
deriving DecidableEq, Repr

/-- `Person { job: Option<Job> }`. -/
structure Person : Type where
  job : Option Job
deriving DecidableEq, Repr

/-- `Person::work_phone_area_code`: `self.job?.phone_number?.area_code`. -/
def work_phone_area_code (self : Person) : Option Nat :=
  qmarkO self.job (fun j =>
    qmarkO j.phone_number (fun ph => ph.area_code))

/-- `Food` from `combinators_map`. -/
inductive Food : Type
| apple : Food
| carrot : Food
| potato : Food
deriving DecidableEq, Repr

/-- `struct Peeled(Food)`. -/
structure Peeled : Type where
  food : Food
deriving DecidableEq, Repr

/-- `struct Chopped(Food)`. -/
structure Chopped : Type where
  food : Food
deriving DecidableEq, Repr

/-- `struct Cooked(Food)`. -/
structure Cooked : Type where
  food : Food
deriving DecidableEq, Repr

/-- `peel`, written with an explicit `match` in the source. -/
def peel (food : Option Food) : Option Peeled :=
  match food with
  | Option.some f => Option.some (Peeled.mk f)
  | Option.none => Option.none

/-- `chop`, written with an explicit `match` in the source. -/
def chop (peeled : Option Peeled) : Option Chopped :=
  match peeled with
  | Option.some pf => Option.some (Chopped.mk pf.food)
  | Option.none => Option.none

/-- `cook`, written with `map` in the source. -/
def cook (chopped : Option Chopped) : Option Cooked :=
  optMap chopped (fun cf => Cooked.mk cf.food)

/-- `process`: the three transformations as a chain of `map` steps. -/
def process (food : Option Food) : Option Cooked :=
  optMap (optMap (optMap food (fun f => Peeled.mk f))
      (fun pf => Chopped.mk pf.food))
    (fun cf => Cooked.mk cf.food)

/-- `Fruit` from the `or_else` demonstration. -/
inductive Fruit : Type
| apple : Fruit
| orange : Fruit
| banana : Fruit
| kiwi : Fruit
| lemon : Fruit
deriving DecidableEq, Repr

/-- The kiwi fallback closure: yields `Some(Kiwi)` and would print its
message when invoked. -/
def get_kiwi_as_fallback : Unit → Option Fruit × String :=
  fun _ => (Option.some Fruit.kiwi, "Providing kiwi as fallback")

/-- The lemon fallback closure: yields `Some(Lemon)` and would print its
message when invoked. -/
def get_lemon_as_fallback : Unit → Option Fruit × String :=
  fun _ => (Option.some Fruit.lemon, "Providing lemon as fallback")

/-- The `or_else` chain of the source, starting from `no_fruit = None`,
with the log of fallback messages actually printed. -/
def first_available_fruit : Option Fruit × List String :=
  or_elseW (or_elseW (Option.none, []) get_kiwi_as_fallback)
    get_lemon_as_fallback

/-! `checked_division` from chapter 19. Rust's `/` on `i32` is truncating
division and panics when the divisor is zero or when the quotient does
not fit in `i32` (only at `i32::MIN / -1`); the `Except` error marks a
panic. The function's own guard rules the zero case out. -/

/-- Rust `i32` division `dividend / divisor`: truncating division, with a
panic (modelled as `Except.error`) on division by zero or on quotient
overflow. -/
def i32Div (a b : Int) : Except String Int :=
  if b = 0 then Except.error "attempt to divide by zero"
  else
    let q := Int.tdiv a b
    if q < -2147483648 ∨ 2147483647 < q then
      Except.error "attempt to divide with overflow"
    else Except.ok q

/-- `checked_division`: `None` when the divisor is zero, otherwise the
`i32` division (which can itself panic on overflow). -/
def checked_division (dividend divisor : Int) : Except String (Option Int) :=
  if divisor = 0 then Except.ok Option.none
  else (i32Div dividend divisor).map Option.some

/-! Sanity checks of the parse model against the outputs the source's
comments record. -/

example : parseI32 "42" = RustResult.ok 42 := by decide
example : parseI32 "10" = RustResult.ok 10 := by decide
example : parseI32 "-7" = RustResult.ok (-7) := by decide
example : parseI32 "t" = RustResult.err ⟨IntErrorKind.invalidDigit⟩ := by decide
example : parseI32 "tofu" = RustResult.err ⟨IntErrorKind.invalidDigit⟩ := by decide
example : parseI32 "" = RustResult.err ⟨IntErrorKind.empty⟩ := by decide
example : parseI32 "2147483648" = RustResult.err ⟨IntErrorKind.posOverflow⟩ := by decide
example : parseI32 "-2147483648" = RustResult.ok (-2147483648) := by decide

example : multiply "10" "2" = RustResult.ok 20 := by decide
example : double_first ["42", "93", "18"] = RustResult.ok 84 := by decide

/-- A pipeline whose current value is already a failure invokes no step at
all: every remaining `chain` step is skipped. -/
theorem chainRun_err {α ε : Type} (e : ε) (l : List (α → RustResult α ε)) :
    chainRun (RustResult.err e) l = (RustResult.err e, 0) := by
  cases l <;> rfl

/-- Claim C1: the `?` operator on a `Failure(e)` returns
`Failure(convert(e))` from the enclosing computation, where `convert` is
the declared conversion into the enclosing failure type, and passes `e`
through unchanged when the types are identical; concretely, `double_first`
on a vector whose first element fails to parse returns
`Failure(DoubleError.Parse(p))` for the parse error `p` of that step. -/
theorem question_mark_propagates_with_conversion {α β ε φ : Type}
    (conv : ε → φ) (k : α → RustResult β φ) (k₂ : α → RustResult β ε)
    (e : ε) (s : String) (rest : List String) (p : ParseIntError)
    (h : parseI32 s = RustResult.err p) :
    qmark (RustResult.err e) conv k = RustResult.err (conv e)
    ∧ qmark (RustResult.err e) (fun x => x) k₂ = RustResult.err e
    ∧ double_first (s :: rest) = RustResult.err (DoubleError.parse p) := by
  refine ⟨rfl, rfl, ?_⟩
  simp [double_first, firstElem, ok_or, qmark, h, fromParseIntError]

/-- Witness for C1 at the source's own input `["tofu", "93", "18"]`. -/
theorem question_mark_propagates_with_conversion_witness :
    double_first ["tofu", "93", "18"] =
      RustResult.err (DoubleError.parse ⟨IntErrorKind.invalidDigit⟩) :=
  (question_mark_propagates_with_conversion
    (fun e : ParseIntError => DoubleError.parse e)
    (fun _ : Int => RustResult.ok (0 : Int))
    (fun _ : Int => RustResult.ok (0 : Int))
    ⟨IntErrorKind.invalidDigit⟩ "tofu" ["93", "18"]
    ⟨IntErrorKind.invalidDigit⟩ (by decide)).2.2

/-- Claim C2: a pipeline of `chain` steps short-circuits — once step `k`
produces `Failure(e)`, the whole pipeline's result is `Failure(e)` and no
later step is invoked (the invocation count is unchanged by appending
steps); concretely, multiplying the parses of `"t"` and `"2"` yields the
parse failure for `"t"` after a single parse attempt. -/
theorem chain_pipeline_short_circuits {α ε : Type}
    (r : RustResult α ε) (pre post : List (α → RustResult α ε))
    (e : ε) (n : Nat)
    (h : chainRun r pre = (RustResult.err e, n)) :
    chainRun r (pre ++ post) = (RustResult.err e, n)
    ∧ multiply "t" "2" = RustResult.err ⟨IntErrorKind.invalidDigit⟩
    ∧ multiplyCounting "t" "2" = (RustResult.err ⟨IntErrorKind.invalidDigit⟩, 1)
    ∧ multiply_with_combinators "t" "2" =
        RustResult.err ⟨IntErrorKind.invalidDigit⟩ := by
  refine ⟨?_, by decide, by decide, by decide⟩
  induction pre generalizing r n with
  | nil =>
    have h' : r = RustResult.err e ∧ 0 = n := by
      simpa [chainRun] using h
    rw [List.nil_append, h'.1, ← h'.2]
    exact chainRun_err e post
  | cons f fs ih =>
    cases r with
    | err e' =>
      rw [chainRun_err] at h
      have h1 : RustResult.err e' = (RustResult.err e : RustResult α ε) :=
        congrArg Prod.fst h
      have h2 : 0 = n := congrArg Prod.snd h
      rw [h1, ← h2]
      exact chainRun_err e (f :: fs ++ post)
    | ok v =>
      have h' : (chainRun (f v) fs).1 = RustResult.err e
          ∧ (chainRun (f v) fs).2 + 1 = n := by
        simpa [chainRun] using h
      have key : chainRun (f v) fs =
          (RustResult.err e, (chainRun (f v) fs).2) := by
        rw [← h'.1]
      have ih' := ih (f v) ((chainRun (f v) fs).2) key
      show ((chainRun (f v) (fs ++ post)).1,
        (chainRun (f v) (fs ++ post)).2 + 1) = (RustResult.err e, n)
      rw [ih', ← h'.2]

/-- Witness for C2: a two-step pipeline whose first step fails invokes
exactly one step, regardless of the appended second step. -/
theorem chain_pipeline_short_circuits_witness :
    chainRun (RustResult.ok (1 : Int))
        ([fun _ => RustResult.err (⟨IntErrorKind.invalidDigit⟩ : ParseIntError)]
          ++ [fun m => RustResult.ok (m + 1)]) =
      (RustResult.err ⟨IntErrorKind.invalidDigit⟩, 1)
    ∧ multiply "t" "2" = RustResult.err ⟨IntErrorKind.invalidDigit⟩ := by
  have W := chain_pipeline_short_circuits (RustResult.ok (1 : Int))
    [fun _ => RustResult.err (⟨IntErrorKind.invalidDigit⟩ : ParseIntError)]
    [fun m => RustResult.ok (m + 1)] ⟨IntErrorKind.invalidDigit⟩ 1 rfl
  exact ⟨W.1, W.2.1⟩

/-- Claim C3: the `?` operator on an `OptionalValue` evaluates `Present(v)`
to `v` and makes the enclosing computation return `Absent` on `Absent`,
with no conversion; concretely `next_birthday(None) = None`, and
`work_phone_area_code` returns `None` as soon as any link of
`job?.phone_number?.area_code` is `None`. -/
theorem question_mark_on_option {α β : Type} (v : α) (k : α → Option β)
    (p : Person) (j : Job) (ph : PhoneNumber) :
    qmarkO (Option.some v) k = k v
    ∧ qmarkO (Option.none : Option α) k = Option.none
    ∧ next_birthday Option.none = Option.none
    ∧ (p.job = Option.none → work_phone_area_code p = Option.none)
    ∧ (p.job = Option.some j → j.phone_number = Option.none →
        work_phone_area_code p = Option.none)
    ∧ (p.job = Option.some j → j.phone_number = Option.some ph →
        ph.area_code = Option.none → work_phone_area_code p = Option.none) := by
  refine ⟨rfl, rfl, rfl, ?_, ?_, ?_⟩
  · intro h1
    simp [work_phone_area_code, qmarkO, h1]
  · intro h1 h2
    simp [work_phone_area_code, qmarkO, h1, h2]
  · intro h1 h2 h3
    simp [work_phone_area_code, qmarkO, h1, h2, h3]

/-- Witness for C3: each broken link of the chain yields `None`. -/
theorem question_mark_on_option_witness :
    work_phone_area_code (Person.mk Option.none) = Option.none
    ∧ work_phone_area_code (Person.mk (Option.some (Job.mk Option.none)))
        = Option.none
    ∧ work_phone_area_code (Person.mk (Option.some (Job.mk (Option.some
        (PhoneNumber.mk Option.none 439222222))))) = Option.none := by
  refine ⟨?_, ?_, ?_⟩
  · exact (question_mark_on_option (0 : Nat)
      (fun _ => (Option.none : Option Nat)) (Person.mk Option.none)
      (Job.mk Option.none) (PhoneNumber.mk Option.none 0)).2.2.2.1 rfl
  · exact (question_mark_on_option (0 : Nat)
      (fun _ => (Option.none : Option Nat))
      (Person.mk (Option.some (Job.mk Option.none)))
      (Job.mk Option.none) (PhoneNumber.mk Option.none 0)).2.2.2.2.1 rfl rfl
  · exact (question_mark_on_option (0 : Nat)
      (fun _ => (Option.none : Option Nat))
      (Person.mk (Option.some (Job.mk (Option.some
        (PhoneNumber.mk Option.none 439222222)))))
      (Job.mk (Option.some (PhoneNumber.mk Option.none 439222222)))
      (PhoneNumber.mk Option.none 439222222)).2.2.2.2.2 rfl rfl rfl

/-- Claim C4: converting a typed failure into the unifying `DoubleError`
and reading the cause back through the `source()` accessor yields some
cause whose description equals the original failure's description, while
the `EmptyVec` variant has no cause. -/
theorem conversion_preserves_cause (e : ParseIntError) :
    (∃ c, DoubleError.source (fromParseIntError e) = Option.some c
        ∧ c.description = e.description)
    ∧ DoubleError.source DoubleError.emptyVec = Option.none :=
  ⟨⟨e, rfl, rfl⟩, rfl⟩

/-- Claim C5: `Present(v).map(f) = Present(f v)` and `Absent.map(f) =
Absent` with the mapped function never invoked on `Absent`; a chain of
`map` steps (`process`) passes `Absent` through unchanged, as does the
`match`-based `peel`. -/
theorem optional_map_laws {α β : Type} (v : α) (f : α → β) :
    optMap (Option.some v) f = Option.some (f v)
    ∧ optMap (Option.none : Option α) f = Option.none
    ∧ optMapCounting (Option.none : Option α) f = (Option.none, 0)
    ∧ process Option.none = Option.none
    ∧ peel Option.none = Option.none :=
  ⟨rfl, rfl, rfl, rfl, rfl⟩

/-- Claim C6: `Failure(e).map(f) = Failure(e)`,
`Failure(e).map_err(g) = Failure(g e)`, and
`Success(v).map_err(g) = Success(v)`. -/
theorem result_map_laws {T E F U : Type} (e : E) (v : T) (f : T → U)
    (g : E → F) :
    RustResult.map (RustResult.err e : RustResult T E) f = RustResult.err e
    ∧ RustResult.map_err (RustResult.err e : RustResult T E) g
        = RustResult.err (g e)
    ∧ RustResult.map_err (RustResult.ok v : RustResult T E) g
        = RustResult.ok v :=
  ⟨rfl, rfl, rfl⟩

/-- Claim C7: `or_else` on a `Present` value returns it and never invokes
the producer (the message log is unchanged); the chain starting from
`Absent` runs only the first producer, ending at `Present(Kiwi)` with the
lemon producer never invoked. -/
theorem fallback_lazy_laws {α : Type} (v : α) (f : Unit → Option α)
    (log : List String) (gw : Unit → Option α × String) :
    or_else (Option.some v) f = Option.some v
    ∧ or_elseW (Option.some v, log) gw = (Option.some v, log)
    ∧ first_available_fruit =
        (Option.some Fruit.kiwi, ["Providing kiwi as fallback"])
    ∧ ¬ ("Providing lemon as fallback" ∈ first_available_fruit.2) :=
  ⟨rfl, rfl, rfl, by decide⟩

/-- Claim C8: `get_or_insert` on `Absent` stores `Present(value)` and
returns that value; a second call with a different value returns the
stored one and leaves the state unchanged. -/
theorem get_or_insert_at_most_once {α : Type} (v w : α) :
    get_or_insert (Option.none : Option α) v = (v, Option.some v)
    ∧ get_or_insert (get_or_insert (Option.none : Option α) v).2 w
        = (v, Option.some v)
    ∧ get_or_insert_with (Option.some v) (fun _ => w)
        = (v, Option.some v, false) :=
  ⟨rfl, rfl, rfl⟩

/-- Claim C9: on the empty vector, `first` yields `Absent`, and both
`double_first` variants turn it into the declared empty-input failure via
`ok_or` and the `?` operator — a returned `Failure`, not an abort. -/
theorem double_first_empty_conversion :
    firstElem ([] : List String) = Option.none
    ∧ double_first_dyn [] = RustResult.err BoxedError.emptyVec
    ∧ double_first [] = RustResult.err DoubleError.emptyVec :=
  ⟨rfl, rfl, rfl⟩

/-- Counterexample to claim C10 as stated: at `dividend = i32::MIN` and
`divisor = -1` the divisor is nonzero, yet `checked_division` does not
return `Some(dividend / divisor)` — the `i32` division overflows and the
program panics. -/
theorem checked_division_overflow_counterexample :
    (-1 : Int) ≠ 0
    ∧ checked_division (-2147483648) (-1)
        = Except.error "attempt to divide with overflow"
    ∧ checked_division (-2147483648) (-1)
        ≠ Except.ok (Option.some (Int.tdiv (-2147483648) (-1))) := by
  refine ⟨by decide, rfl, fun hc => ?_⟩
  exact Except.noConfusion hc

/-- For `i32`-ranged operands with a nonzero divisor, the truncating
quotient stays inside the `i32` range except at `(i32::MIN, -1)`. -/
theorem tdiv_bound_of_ne_min (a b : Int)
    (ha₁ : -2147483648 ≤ a) (ha₂ : a ≤ 2147483647) (hb : b ≠ 0)
    (hmin : ¬(a = -2147483648 ∧ b = -1)) :
    -2147483648 ≤ Int.tdiv a b ∧ Int.tdiv a b ≤ 2147483647 := by
  rcases eq_or_ne b 1 with hb1 | hb1
  · subst hb1
    rw [Int.tdiv_one]
    exact ⟨ha₁, ha₂⟩
  rcases eq_or_ne b (-1) with hbm1 | hbm1
  · subst hbm1
    have hneg : Int.tdiv a (-1) = -a := by
      have h1 := Int.tdiv_neg a 1
      rw [Int.tdiv_one] at h1
      exact h1
    rw [hneg]
    have hne : a ≠ -2147483648 := fun hcontra => hmin ⟨hcontra, rfl⟩
    omega
  · have hna : a.natAbs ≤ 2147483648 := by omega
    have hb2 : 2 ≤ b.natAbs := by omega
    have hq : (Int.tdiv a b).natAbs ≤ 1073741824 := by
      rw [Int.natAbs_tdiv]
      calc a.natAbs / b.natAbs ≤ 2147483648 / b.natAbs :=
            Nat.div_le_div_right hna
        _ ≤ 2147483648 / 2 := Nat.div_le_div_left hb2 (by decide)
        _ = 1073741824 := by decide
    omega

/-- Claim C10 (amended): over `i32`-ranged inputs, `checked_division`
returns `None` exactly when the divisor is zero, and otherwise — except at
`(i32::MIN, -1)`, where the division itself overflows and panics — returns
`Some` of the truncating quotient. -/
theorem checked_division_spec (dividend divisor : Int)
    (ha : -2147483648 ≤ dividend ∧ dividend ≤ 2147483647)
    (_hb : -2147483648 ≤ divisor ∧ divisor ≤ 2147483647)
    (hmin : ¬(dividend = -2147483648 ∧ divisor = -1)) :
    (checked_division dividend divisor = Except.ok Option.none ↔ divisor = 0)
    ∧ (divisor ≠ 0 →
        checked_division dividend divisor
          = Except.ok (Option.some (Int.tdiv dividend divisor))) := by
  have hok : divisor ≠ 0 →
      checked_division dividend divisor
        = Except.ok (Option.some (Int.tdiv dividend divisor)) := by
    intro hdvd
    have hbnd := tdiv_bound_of_ne_min dividend divisor ha.1 ha.2 hdvd hmin
    simp only [checked_division, i32Div, if_neg hdvd]
    rw [if_neg (by omega : ¬(Int.tdiv dividend divisor < -2147483648
      ∨ 2147483647 < Int.tdiv dividend divisor))]
    rfl
  refine ⟨⟨fun h => ?_, fun h => ?_⟩, hok⟩
  · by_contra hdvd
    rw [hok hdvd] at h
    simp at h
  · rw [checked_division, if_pos h]

/-- Witness for the amended C10: a nonzero divisor yields the quotient, a
zero divisor yields `None`. -/
theorem checked_division_spec_witness :
    checked_division 4 2 = Except.ok (Option.some 2)
    ∧ checked_division 1 0 = Except.ok Option.none := by
  have W := checked_division_spec 4 2 (by decide) (by decide) (by decide)
  have W0 := checked_division_spec 1 0 (by decide) (by decide) (by decide)
  exact ⟨(W.2 (by decide)).trans rfl, W0.1.mpr rfl⟩
